import Mathlib

/-!
Verification of the oplog event-capture and snapshot layer
(`plugins/oplog/oplog_events.py`).

The Python module defines pydantic models: immutable-by-convention snapshot
value types (`FuncModel`, `OpModel`, `InsnModel`, `SegmentModel`, `RangeModel`,
`UdmModel`, `EdmModel`), converters `from_*_t` that deep-copy transient IDA
structures, per-field validators on `SegmentModel`, and a closed union
`idb_event` of 79 event record classes, each tagged by a `Literal` string
`event_name` and carrying a `datetime` timestamp.

The embedding below mirrors the source: Python `int` becomes `Int`,
`str` becomes `String`, `bool` becomes `Bool`, `X | None` becomes `Option X`,
`datetime` becomes an integer timestamp, and `Any` becomes the dynamic value
type `DVal` (carried through opaquely, per the design notes).  A pydantic
model construction `cls(...)` becomes a `make` function returning
`Except (List VError) model`, running exactly the `field_validator`s the
source attaches (in pydantic's field-declaration order); models without
validators construct unconditionally, as pydantic does for plain `int`,
`str`, `list` fields.
-/

/-- Dynamic (Python `Any` / JSON-like) values: integers, strings, booleans,
`None`, and lists.  Used both for fields the source annotates `Any`
(carried through opaquely) and as the target of the serializer. -/
inductive DVal where
  | int (i : Int)
  | str (s : String)
  | bool (b : Bool)
  | none
  | list (l : List DVal)

/-- Python `datetime` timestamps, modelled as integer epoch milliseconds. -/
abbrev datetime := Int

/-- One entry of a pydantic `ValidationError`: the location (field name), the
message of the `ValueError` raised by the field validator, and the offending
input value pydantic attaches to the error. -/
structure VError where
  field : String
  msg : String
  input : DVal

/-- Model of `ida_funcs.func_t` snapshot (`FuncModel`), fields as declared. -/
structure FuncModel where
  start_ea : Int
  end_ea : Int
  flags : Int
  frame : Int
  frsize : Int
  frregs : Int
  argsize : Int
  fpd : Int
  color : Int
  pntqty : Int
  regvarqty : Int
  regargqty : Int
  tailqty : Int
  owner : Int
  refqty : Int
  name : Option String
deriving DecidableEq

/-- Model of `ida_ua.op_t` snapshot (`OpModel`), fields as declared. -/
structure OpModel where
  n : Int
  type : Int
  offb : Int
  offo : Int
  flags : Int
  dtype : Int
  reg : Int
  phrase : Int
  value : Int
  addr : Int
  specval : Int
  specflag1 : Int
  specflag2 : Int
  specflag3 : Int
  specflag4 : Int
deriving DecidableEq

/-- Model of `ida_ua.insn_t` snapshot (`InsnModel`), fields as declared.
Note: the source declares `ops: list[OpModel]` with no length validator. -/
structure InsnModel where
  cs : Int
  ip : Int
  ea : Int
  itype : Int
  size : Int
  auxpref : Int
  auxpref_u16 : List Int
  auxpref_u8 : List Int
  segpref : Int
  insnpref : Int
  flags : Int
  ops : List OpModel
deriving DecidableEq

/-- Model of `ida_segment.segment_t` snapshot (`SegmentModel`), fields as
declared, in declaration order (pydantic validates fields in this order). -/
structure SegmentModel where
  start_ea : Int
  end_ea : Int
  name : Int
  sclass : Int
  orgbase : Int
  align : Int
  comb : Int
  perm : Int
  bitness : Int
  flags : Int
  sel : Int
  defsr : List Int
  type : Int
  color : Int
  segment_name : Option String
  segment_class : Option String
deriving DecidableEq

/-- Model of `ida_range.range_t` snapshot (`RangeModel`). -/
structure RangeModel where
  start_ea : Int
  end_ea : Int
deriving DecidableEq

/-- Model of `ida_typeinf.udm_t` snapshot (`UdmModel`). -/
structure UdmModel where
  offset : Int
  size : Int
  name : String
  cmt : String
  tid : Int
  repr : String
  effalign : Int
  tafld_bits : Int
  fda : Int
deriving DecidableEq

/-- Model of `ida_typeinf.edm_t` snapshot (`EdmModel`). -/
structure EdmModel where
  name : String
  comment : String
  value : Int
  tid : Int
deriving DecidableEq

/-- `SegmentModel.validate_bitness`: returns the `ValueError` message when the
check fails, `none` when the value passes.  The source message is a fixed
string that does not interpolate the rejected value. -/
def SegmentModel.validate_bitness (v : Int) : Option String :=
  if v = 0 ∨ v = 1 ∨ v = 2 then Option.none
  else Option.some "bitness must be 0 (16bit), 1 (32bit), or 2 (64bit)"

/-- `SegmentModel.validate_defsr_length`: the message interpolates `len(v)`. -/
def SegmentModel.validate_defsr_length (v : List Int) : Option String :=
  if v.length = 16 then Option.none
  else Option.some ("defsr must have exactly 16 elements, got " ++ toString v.length)

/-- `SegmentModel.validate_align`: the message interpolates the value. -/
def SegmentModel.validate_align (v : Int) : Option String :=
  if 0 ≤ v ∧ v ≤ 255 then Option.none
  else Option.some ("align must be in range 0-255, got " ++ toString v)

/-- `SegmentModel.validate_comb`: the message interpolates the value. -/
def SegmentModel.validate_comb (v : Int) : Option String :=
  if 0 ≤ v ∧ v ≤ 255 then Option.none
  else Option.some ("comb must be in range 0-255, got " ++ toString v)

/-- `SegmentModel.validate_perm`: the message interpolates the value. -/
def SegmentModel.validate_perm (v : Int) : Option String :=
  if 0 ≤ v ∧ v ≤ 255 then Option.none
  else Option.some ("perm must be in range 0-255, got " ++ toString v)

/-- `SegmentModel.validate_type`: the message interpolates the value. -/
def SegmentModel.validate_type (v : Int) : Option String :=
  if 0 ≤ v ∧ v ≤ 255 then Option.none
  else Option.some ("type must be in range 0-255, got " ++ toString v)

/-- `SegmentModel.validate_flags`: the message interpolates the value. -/
def SegmentModel.validate_flags (v : Int) : Option String :=
  if 0 ≤ v ∧ v ≤ 65535 then Option.none
  else Option.some ("flags must be in range 0-65535, got " ++ toString v)

/-- Turns one field validator's outcome into the pydantic error-list
contribution for that field: empty when it passed, a single `VError`
carrying the field name, the raised message and the offending input
when it failed. -/
def errOf (fieldName : String) (input : DVal) : Option String → List VError
  | Option.none => []
  | Option.some m => [⟨fieldName, m, input⟩]

/-- The validator failures a `SegmentModel(...)` construction accumulates,
in pydantic's field-declaration order (`align`, `comb`, `perm`, `bitness`,
`flags`, `defsr`, `type`): only these seven fields have validators. -/
def SegmentModel.collectErrors (align comb perm bitness flags : Int)
    (defsr : List Int) (type : Int) : List VError :=
  errOf "align" (.int align) (SegmentModel.validate_align align)
  ++ errOf "comb" (.int comb) (SegmentModel.validate_comb comb)
  ++ errOf "perm" (.int perm) (SegmentModel.validate_perm perm)
  ++ errOf "bitness" (.int bitness) (SegmentModel.validate_bitness bitness)
  ++ errOf "flags" (.int flags) (SegmentModel.validate_flags flags)
  ++ errOf "defsr" (.list (defsr.map .int)) (SegmentModel.validate_defsr_length defsr)
  ++ errOf "type" (.int type) (SegmentModel.validate_type type)

/-- Construction of a `SegmentModel` (pydantic `SegmentModel(...)`): runs the
attached field validators, collecting every failure into one
`ValidationError`, and produces the instance only when no validator
raised. -/
def SegmentModel.make (start_ea end_ea name sclass orgbase align comb perm bitness flags sel : Int)
    (defsr : List Int) (type color : Int)
    (segment_name segment_class : Option String) : Except (List VError) SegmentModel :=
  if (SegmentModel.collectErrors align comb perm bitness flags defsr type).isEmpty then
    .ok ⟨start_ea, end_ea, name, sclass, orgbase, align, comb, perm, bitness,
         flags, sel, defsr, type, color, segment_name, segment_class⟩
  else .error (SegmentModel.collectErrors align comb perm bitness flags defsr type)

/-- Construction of a `FuncModel`: the source attaches no validator to any
field, so pydantic only checks the (already enforced) field types and
construction is unconditional. -/
def FuncModel.make (start_ea end_ea flags frame frsize frregs argsize fpd color
    pntqty regvarqty regargqty tailqty owner refqty : Int)
    (name : Option String) : Except (List VError) FuncModel :=
  .ok ⟨start_ea, end_ea, flags, frame, frsize, frregs, argsize, fpd, color,
       pntqty, regvarqty, regargqty, tailqty, owner, refqty, name⟩

/-- Construction of an `OpModel`: no validators in the source. -/
def OpModel.make (n type offb offo flags dtype reg phrase value addr specval
    specflag1 specflag2 specflag3 specflag4 : Int) : Except (List VError) OpModel :=
  .ok ⟨n, type, offb, offo, flags, dtype, reg, phrase, value, addr, specval,
       specflag1, specflag2, specflag3, specflag4⟩

/-- Construction of an `InsnModel`: no validators in the source — in
particular, unlike `SegmentModel.defsr`, the `ops` list has no length
check attached. -/
def InsnModel.make (cs ip ea itype size auxpref : Int)
    (auxpref_u16 auxpref_u8 : List Int) (segpref insnpref flags : Int)
    (ops : List OpModel) : Except (List VError) InsnModel :=
  .ok ⟨cs, ip, ea, itype, size, auxpref, auxpref_u16, auxpref_u8, segpref,
       insnpref, flags, ops⟩

/-- Construction of a `RangeModel`: no validators in the source. -/
def RangeModel.make (start_ea end_ea : Int) : Except (List VError) RangeModel :=
  .ok ⟨start_ea, end_ea⟩

/-- Construction of a `UdmModel`: no validators in the source. -/
def UdmModel.make (offset size : Int) (name cmt : String) (tid : Int)
    (repr : String) (effalign tafld_bits fda : Int) : Except (List VError) UdmModel :=
  .ok ⟨offset, size, name, cmt, tid, repr, effalign, tafld_bits, fda⟩

/-- Construction of an `EdmModel`: no validators in the source. -/
def EdmModel.make (name comment : String) (value tid : Int) : Except (List VError) EdmModel :=
  .ok ⟨name, comment, value, tid⟩

/-- Modelled from pydantic's runtime semantics: none of the models sets
`model_config = ConfigDict(frozen=True)`, so Python attribute assignment
`seg.bitness = v` on a constructed instance is permitted, and with
`validate_assignment` unset it bypasses the field validators entirely.
This definition is that assignment, for the `bitness` field. -/
def SegmentModel.set_bitness (s : SegmentModel) (v : Int) : SegmentModel :=
  { s with bitness := v }

/-- Host structure `ida_ua.op_t` as read by the converter: the fields the
converter copies, valid only transiently during a callback. -/
structure op_t where
  n : Int
  type : Int
  offb : Int
  offo : Int
  flags : Int
  dtype : Int
  reg : Int
  phrase : Int
  value : Int
  addr : Int
  specval : Int
  specflag1 : Int
  specflag2 : Int
  specflag3 : Int
  specflag4 : Int

/-- Host structure `ida_ua.insn_t` as read by the converter.  Its `ops`
member is the fixed 8-slot operand array of IDA's `insn_t`. -/
structure insn_t where
  cs : Int
  ip : Int
  ea : Int
  itype : Int
  size : Int
  auxpref : Int
  auxpref_u16 : List Int
  auxpref_u8 : List Int
  segpref : Int
  insnpref : Int
  flags : Int
  ops : Fin 8 → op_t

/-- `OpModel.from_op_t`: copies every field of the host operand.  The
pydantic construction it performs cannot fail (`OpModel` has no
validators), so the converter returns the model directly. -/
def OpModel.from_op_t (op : op_t) : OpModel :=
  ⟨op.n, op.type, op.offb, op.offo, op.flags, op.dtype, op.reg, op.phrase,
   op.value, op.addr, op.specval, op.specflag1, op.specflag2, op.specflag3,
   op.specflag4⟩

/-- `InsnModel.from_insn_t`: copies the scalar fields, the two auxiliary
prefix sequences, and `ops=[OpModel.from_op_t(insn.ops[i]) for i in range(8)]`
— all 8 operand slots in index order, used or not. -/
def InsnModel.from_insn_t (insn : insn_t) : Except (List VError) InsnModel :=
  InsnModel.make insn.cs insn.ip insn.ea insn.itype insn.size insn.auxpref
    insn.auxpref_u16 insn.auxpref_u8 insn.segpref insn.insnpref insn.flags
    ((List.finRange 8).map fun i => OpModel.from_op_t (insn.ops i))

/-- The event record classes the source defines (lines 309-885), in
declaration order: the full event taxonomy. -/
def definedEventClasses : List String :=
  ["adding_segm_event",
   "segm_added_event",
   "deleting_segm_event",
   "segm_deleted_event",
   "changing_segm_start_event",
   "segm_start_changed_event",
   "changing_segm_end_event",
   "segm_end_changed_event",
   "changing_segm_name_event",
   "segm_name_changed_event",
   "changing_segm_class_event",
   "segm_class_changed_event",
   "segm_attrs_updated_event",
   "segm_moved_event",
   "allsegs_moved_event",
   "func_added_event",
   "func_updated_event",
   "set_func_start_event",
   "set_func_end_event",
   "deleting_func_event",
   "func_deleted_event",
   "thunk_func_created_event",
   "func_tail_appended_event",
   "deleting_func_tail_event",
   "func_tail_deleted_event",
   "tail_owner_changed_event",
   "func_noret_changed_event",
   "updating_tryblks_event",
   "tryblks_updated_event",
   "deleting_tryblks_event",
   "changing_cmt_event",
   "cmt_changed_event",
   "changing_range_cmt_event",
   "range_cmt_changed_event",
   "extra_cmt_changed_event",
   "sgr_changed_event",
   "sgr_deleted_event",
   "make_code_event",
   "make_data_event",
   "destroyed_items_event",
   "renamed_event",
   "byte_patched_event",
   "item_color_changed_event",
   "callee_addr_changed_event",
   "bookmark_changed_event",
   "changing_op_type_event",
   "op_type_changed_event",
   "dirtree_mkdir_event",
   "dirtree_rmdir_event",
   "dirtree_link_event",
   "dirtree_move_event",
   "dirtree_rank_event",
   "dirtree_rminode_event",
   "dirtree_segm_moved_event",
   "changing_ti_event",
   "ti_changed_event",
   "changing_op_ti_event",
   "op_ti_changed_event",
   "local_types_changed_event",
   "lt_udm_created_event",
   "lt_udm_deleted_event",
   "lt_udm_renamed_event",
   "lt_udm_changed_event",
   "lt_udt_expanded_event",
   "lt_edm_created_event",
   "lt_edm_deleted_event",
   "lt_edm_renamed_event",
   "lt_edm_changed_event",
   "stkpnts_changed_event",
   "frame_created_event",
   "frame_expanded_event",
   "frame_deleted_event",
   "frame_udm_created_event",
   "frame_udm_deleted_event",
   "frame_udm_renamed_event",
   "frame_udm_changed_event",
   "determined_main_event",
   "extlang_changed_event",
   "idasgn_matched_ea_event"]

/-- The `event_name` discriminant tag `Literal` of each event class, in
class-declaration order. -/
def event_names : List String :=
  ["adding_segm",
   "segm_added",
   "deleting_segm",
   "segm_deleted",
   "changing_segm_start",
   "segm_start_changed",
   "changing_segm_end",
   "segm_end_changed",
   "changing_segm_name",
   "segm_name_changed",
   "changing_segm_class",
   "segm_class_changed",
   "segm_attrs_updated",
   "segm_moved",
   "allsegs_moved",
   "func_added",
   "func_updated",
   "set_func_start",
   "set_func_end",
   "deleting_func",
   "func_deleted",
   "thunk_func_created",
   "func_tail_appended",
   "deleting_func_tail",
   "func_tail_deleted",
   "tail_owner_changed",
   "func_noret_changed",
   "updating_tryblks",
   "tryblks_updated",
   "deleting_tryblks",
   "changing_cmt",
   "cmt_changed",
   "changing_range_cmt",
   "range_cmt_changed",
   "extra_cmt_changed",
   "sgr_changed",
   "sgr_deleted",
   "make_code",
   "make_data",
   "destroyed_items",
   "renamed",
   "byte_patched",
   "item_color_changed",
   "callee_addr_changed",
   "bookmark_changed",
   "changing_op_type",
   "op_type_changed",
   "dirtree_mkdir",
   "dirtree_rmdir",
   "dirtree_link",
   "dirtree_move",
   "dirtree_rank",
   "dirtree_rminode",
   "dirtree_segm_moved",
   "changing_ti",
   "ti_changed",
   "changing_op_ti",
   "op_ti_changed",
   "local_types_changed",
   "lt_udm_created",
   "lt_udm_deleted",
   "lt_udm_renamed",
   "lt_udm_changed",
   "lt_udt_expanded",
   "lt_edm_created",
   "lt_edm_deleted",
   "lt_edm_renamed",
   "lt_edm_changed",
   "stkpnts_changed",
   "frame_created",
   "frame_expanded",
   "frame_deleted",
   "frame_udm_created",
   "frame_udm_deleted",
   "frame_udm_renamed",
   "frame_udm_changed",
   "determined_main",
   "extlang_changed",
   "idasgn_matched_ea"]

/-- The member classes of the union type `idb_event` (lines 888-968), in
the order the union lists them. -/
def idbEventMembers : List String :=
  ["renamed_event",
   "make_code_event",
   "make_data_event",
   "func_added_event",
   "segm_added_event",
   "segm_moved_event",
   "ti_changed_event",
   "adding_segm_event",
   "changing_ti_event",
   "cmt_changed_event",
   "sgr_changed_event",
   "sgr_deleted_event",
   "byte_patched_event",
   "changing_cmt_event",
   "dirtree_link_event",
   "dirtree_move_event",
   "dirtree_rank_event",
   "func_deleted_event",
   "func_updated_event",
   "segm_deleted_event",
   "set_func_end_event",
   "allsegs_moved_event",
   "deleting_func_event",
   "deleting_segm_event",
   "dirtree_mkdir_event",
   "dirtree_rmdir_event",
   "frame_created_event",
   "frame_deleted_event",
   "op_ti_changed_event",
   "changing_op_ti_event",
   "frame_expanded_event",
   "lt_edm_changed_event",
   "lt_edm_created_event",
   "lt_edm_deleted_event",
   "lt_edm_renamed_event",
   "lt_udm_changed_event",
   "lt_udm_created_event",
   "lt_udm_deleted_event",
   "lt_udm_renamed_event",
   "set_func_start_event",
   "destroyed_items_event",
   "determined_main_event",
   "dirtree_rminode_event",
   "extlang_changed_event",
   "lt_udt_expanded_event",
   "op_type_changed_event",
   "stkpnts_changed_event",
   "tryblks_updated_event",
   "bookmark_changed_event",
   "changing_op_type_event",
   "deleting_tryblks_event",
   "segm_end_changed_event",
   "updating_tryblks_event",
   "changing_segm_end_event",
   "extra_cmt_changed_event",
   "frame_udm_changed_event",
   "frame_udm_created_event",
   "frame_udm_deleted_event",
   "frame_udm_renamed_event",
   "func_tail_deleted_event",
   "idasgn_matched_ea_event",
   "range_cmt_changed_event",
   "segm_name_changed_event",
   "changing_range_cmt_event",
   "changing_segm_name_event",
   "deleting_func_tail_event",
   "dirtree_segm_moved_event",
   "func_noret_changed_event",
   "func_tail_appended_event",
   "item_color_changed_event",
   "segm_attrs_updated_event",
   "segm_class_changed_event",
   "segm_start_changed_event",
   "tail_owner_changed_event",
   "thunk_func_created_event",
   "callee_addr_changed_event",
   "changing_segm_class_event",
   "changing_segm_start_event",
   "local_types_changed_event"]

/-- C4: the closed union type `idb_event` contains every event record kind the
taxonomy defines: each of the 79 `*_event` classes appears among the union's
members (and the union lists nothing outside the taxonomy), so a consumer
branching exhaustively over `idb_event` covers every mutation category. -/
theorem idb_event_union_is_complete :
    definedEventClasses.all (fun c => idbEventMembers.contains c) = true ∧
    idbEventMembers.all (fun c => definedEventClasses.contains c) = true ∧
    definedEventClasses.length = 79 ∧ idbEventMembers.length = 79 := by
  refine ⟨?_, ?_, ?_, ?_⟩ <;> decide

/-- C5: across the full taxonomy no two event kinds share a discriminant tag:
the 79 `event_name` literals are pairwise distinct. -/
theorem event_names_nodup : event_names.Nodup ∧ event_names.length = 79 := by
  constructor
  · decide
  · decide

theorem errOf_eq_nil_iff (f : String) (i : DVal) (o : Option String) :
    errOf f i o = [] ↔ o = Option.none := by
  cases o <;> simp [errOf]

theorem validate_align_none_iff (v : Int) :
    SegmentModel.validate_align v = Option.none ↔ (0 ≤ v ∧ v ≤ 255) := by
  by_cases h : (0 ≤ v ∧ v ≤ 255) <;> simp [SegmentModel.validate_align, h]

theorem validate_comb_none_iff (v : Int) :
    SegmentModel.validate_comb v = Option.none ↔ (0 ≤ v ∧ v ≤ 255) := by
  by_cases h : (0 ≤ v ∧ v ≤ 255) <;> simp [SegmentModel.validate_comb, h]

theorem validate_perm_none_iff (v : Int) :
    SegmentModel.validate_perm v = Option.none ↔ (0 ≤ v ∧ v ≤ 255) := by
  by_cases h : (0 ≤ v ∧ v ≤ 255) <;> simp [SegmentModel.validate_perm, h]

theorem validate_type_none_iff (v : Int) :
    SegmentModel.validate_type v = Option.none ↔ (0 ≤ v ∧ v ≤ 255) := by
  by_cases h : (0 ≤ v ∧ v ≤ 255) <;> simp [SegmentModel.validate_type, h]

theorem validate_flags_none_iff (v : Int) :
    SegmentModel.validate_flags v = Option.none ↔ (0 ≤ v ∧ v ≤ 65535) := by
  by_cases h : (0 ≤ v ∧ v ≤ 65535) <;> simp [SegmentModel.validate_flags, h]

theorem validate_bitness_none_iff (v : Int) :
    SegmentModel.validate_bitness v = Option.none ↔ (v = 0 ∨ v = 1 ∨ v = 2) := by
  by_cases h : (v = 0 ∨ v = 1 ∨ v = 2) <;> simp [SegmentModel.validate_bitness, h]

theorem validate_defsr_none_iff (v : List Int) :
    SegmentModel.validate_defsr_length v = Option.none ↔ v.length = 16 := by
  by_cases h : v.length = 16 <;> simp [SegmentModel.validate_defsr_length, h]

theorem collectErrors_nil_iff (a c p b f : Int) (d : List Int) (t : Int) :
    SegmentModel.collectErrors a c p b f d t = [] ↔
      ((0 ≤ a ∧ a ≤ 255) ∧ (0 ≤ c ∧ c ≤ 255) ∧ (0 ≤ p ∧ p ≤ 255) ∧
       (b = 0 ∨ b = 1 ∨ b = 2) ∧ (0 ≤ f ∧ f ≤ 65535) ∧ d.length = 16 ∧
       (0 ≤ t ∧ t ≤ 255)) := by
  simp [SegmentModel.collectErrors, List.append_eq_nil, errOf_eq_nil_iff,
    validate_align_none_iff, validate_comb_none_iff, validate_perm_none_iff,
    validate_bitness_none_iff, validate_flags_none_iff, validate_defsr_none_iff,
    validate_type_none_iff]

theorem SegmentModel_make_isOk_iff
    (start_ea end_ea name sclass orgbase align comb perm bitness flags sel : Int)
    (defsr : List Int) (type color : Int) (segment_name segment_class : Option String) :
    (SegmentModel.make start_ea end_ea name sclass orgbase align comb perm bitness flags sel
        defsr type color segment_name segment_class).isOk = true ↔
      ((0 ≤ align ∧ align ≤ 255) ∧ (0 ≤ comb ∧ comb ≤ 255) ∧ (0 ≤ perm ∧ perm ≤ 255) ∧
       (bitness = 0 ∨ bitness = 1 ∨ bitness = 2) ∧ (0 ≤ flags ∧ flags ≤ 65535) ∧
       defsr.length = 16 ∧ (0 ≤ type ∧ type ≤ 255)) := by
  rw [← collectErrors_nil_iff, ← List.isEmpty_iff]
  cases hE : (SegmentModel.collectErrors align comb perm bitness flags defsr type).isEmpty <;>
    simp [SegmentModel.make, hE, Except.isOk, Except.toBool]

/-- C1: a `SegmentModel` construction fails exactly when `bitness ∉ {0,1,2}`,
or one of `align`, `comb`, `perm`, `type` is outside `[0,255]`, or `flags` is
outside `[0,65535]`, or `defsr` does not have exactly 16 entries.  In
particular, the segment with `bitness=2, align=16, comb=1, perm=7, type=2,
flags=8` and a 16-entry `defsr` constructs successfully, and the same
segment with `bitness=3` fails with exactly the bitness-domain error. -/
theorem SegmentModel_validation_domain :
    (∀ (start_ea end_ea name sclass orgbase align comb perm bitness flags sel : Int)
        (defsr : List Int) (type color : Int) (segment_name segment_class : Option String),
      (SegmentModel.make start_ea end_ea name sclass orgbase align comb perm bitness flags sel
          defsr type color segment_name segment_class).isOk = false ↔
        (¬(bitness = 0 ∨ bitness = 1 ∨ bitness = 2) ∨
         ¬(0 ≤ align ∧ align ≤ 255) ∨ ¬(0 ≤ comb ∧ comb ≤ 255) ∨
         ¬(0 ≤ perm ∧ perm ≤ 255) ∨ ¬(0 ≤ type ∧ type ≤ 255) ∨
         ¬(0 ≤ flags ∧ flags ≤ 65535) ∨ defsr.length ≠ 16)) ∧
    SegmentModel.make 0 4096 0 0 0 16 1 7 2 8 0 (List.replicate 16 0) 2 0 Option.none Option.none
      = .ok ⟨0, 4096, 0, 0, 0, 16, 1, 7, 2, 8, 0, List.replicate 16 0, 2, 0,
             Option.none, Option.none⟩ ∧
    SegmentModel.make 0 4096 0 0 0 16 1 7 3 8 0 (List.replicate 16 0) 2 0 Option.none Option.none
      = .error [⟨"bitness", "bitness must be 0 (16bit), 1 (32bit), or 2 (64bit)", .int 3⟩] := by
  refine ⟨?_, rfl, rfl⟩
  intro start_ea end_ea name sclass orgbase align comb perm bitness flags sel
    defsr type color segment_name segment_class
  rw [Bool.eq_false_iff, Ne, SegmentModel_make_isOk_iff]
  tauto

/-- C2: for every host instruction, `InsnModel.from_insn_t` succeeds and
produces an `ops` list of length exactly 8, copying operand slots 0
through 7 in slot-index order — unused slots are copied as-is (their
`type` field included), never omitted. -/
theorem from_insn_t_copies_all_8_slots :
    ∀ insn : insn_t, ∃ m : InsnModel, InsnModel.from_insn_t insn = .ok m ∧
      m.ops.length = 8 ∧
      ∀ i : Fin 8, m.ops.get? i.val = Option.some (OpModel.from_op_t (insn.ops i)) := by
  intro insn
  refine ⟨_, rfl, ?_, ?_⟩
  · simp [InsnModel.make]
  · intro i
    fin_cases i <;> rfl

/-- C3 counterexample: constructing an `InsnModel` whose `ops` list is empty
(length 0, not 8) succeeds — the validation layer does not reject the
out-of-domain length at construction time. -/
theorem insn_make_accepts_wrong_ops_length :
    InsnModel.make 0 0 0 0 0 0 [] [] 0 0 0 ([] : List OpModel)
      = .ok ⟨0, 0, 0, 0, 0, 0, [], [], 0, 0, 0, []⟩ ∧
    ([] : List OpModel).length ≠ 8 := ⟨rfl, by decide⟩

/-- C3 amended: `InsnModel` attaches no length validator to `ops` (unlike
`SegmentModel.defsr`): construction succeeds for an operand list of any
length and stores it unchanged; the fixed 8-slot shape is guaranteed only
by the converter `from_insn_t`, not by construction-time validation. -/
theorem insn_make_never_checks_ops_length :
    ∀ (cs ip ea itype size auxpref : Int) (u16 u8 : List Int)
      (segpref insnpref flags : Int) (ops : List OpModel),
      InsnModel.make cs ip ea itype size auxpref u16 u8 segpref insnpref flags ops
        = .ok ⟨cs, ip, ea, itype, size, auxpref, u16, u8, segpref, insnpref, flags, ops⟩ :=
  fun _ _ _ _ _ _ _ _ _ _ _ _ => rfl

/-- A concrete, validly constructed segment snapshot (the value produced by
`SegmentModel.make 0 4096 0 0 0 16 1 7 2 8 0 ([0]*16) 2 0 None None`). -/
def seg0 : SegmentModel :=
  ⟨0, 4096, 0, 0, 0, 16, 1, 7, 2, 8, 0, List.replicate 16 0, 2, 0, Option.none, Option.none⟩

/-- C6 counterexample: snapshot instances are not enforced-immutable.  A
validly constructed segment (`bitness=2`) can afterwards have `bitness`
reassigned to 3 — a value the constructor would reject — because the
models are not frozen and assignment bypasses the validators; the mutated
instance differs from the constructed one in that field. -/
theorem segment_instance_is_mutable :
    SegmentModel.make 0 4096 0 0 0 16 1 7 2 8 0 (List.replicate 16 0) 2 0 Option.none Option.none
      = .ok seg0 ∧
    SegmentModel.set_bitness seg0 3 ≠ seg0 ∧
    (SegmentModel.set_bitness seg0 3).bitness = 3 ∧
    SegmentModel.validate_bitness 3 ≠ Option.none := by
  refine ⟨rfl, ?_, rfl, by decide⟩
  decide

/-- C6 amended: the module's own operations only ever build fresh values,
but immutability is a convention, not an enforced property: since none of
the models is frozen, attribute assignment changes the addressed field of
an already-constructed instance (leaving every other field), and — with
assignment validation unset — accepts values the construction-time
validators would reject. -/
theorem set_bitness_changes_constructed_instance :
    ∀ (s : SegmentModel) (v : Int),
      (SegmentModel.set_bitness s v).bitness = v ∧
      (SegmentModel.set_bitness s v).start_ea = s.start_ea ∧
      (SegmentModel.set_bitness s v).end_ea = s.end_ea ∧
      (SegmentModel.set_bitness s v).align = s.align ∧
      (SegmentModel.set_bitness s v).flags = s.flags ∧
      (SegmentModel.set_bitness s v).defsr = s.defsr ∧
      (SegmentModel.set_bitness s v).segment_name = s.segment_name :=
  fun _ _ => ⟨rfl, rfl, rfl, rfl, rfl, rfl, rfl⟩

/-- C10: domain validation is attached only to `SegmentModel`.  Every other
snapshot model constructs unconditionally from any integer field values —
negative or arbitrarily large included — with every field accepted
unchanged. -/
theorem other_models_accept_any_integers :
    (∀ (a b c d e f g h i j k l m n o : Int) (nm : Option String),
      FuncModel.make a b c d e f g h i j k l m n o nm
        = .ok ⟨a, b, c, d, e, f, g, h, i, j, k, l, m, n, o, nm⟩) ∧
    (∀ (a b c d e f g h i j k l m n o : Int),
      OpModel.make a b c d e f g h i j k l m n o
        = .ok ⟨a, b, c, d, e, f, g, h, i, j, k, l, m, n, o⟩) ∧
    (∀ (a b c d e f : Int) (u16 u8 : List Int) (g h i : Int) (ops : List OpModel),
      InsnModel.make a b c d e f u16 u8 g h i ops
        = .ok ⟨a, b, c, d, e, f, u16, u8, g, h, i, ops⟩) ∧
    (∀ (a b : Int), RangeModel.make a b = .ok ⟨a, b⟩) ∧
    (∀ (a b : Int) (nm cmt : String) (t : Int) (r : String) (x y z : Int),
      UdmModel.make a b nm cmt t r x y z = .ok ⟨a, b, nm, cmt, t, r, x, y, z⟩) ∧
    (∀ (nm cm : String) (v t : Int), EdmModel.make nm cm v t = .ok ⟨nm, cm, v, t⟩) ∧
    (FuncModel.make (-(2 ^ 200)) (2 ^ 200) (-1) 0 0 0 0 0 0 0 0 0 0 0 0 Option.none).isOk
      = true := by
  refine ⟨?_, ?_, ?_, ?_, ?_, ?_, rfl⟩ <;> intros <;> rfl

theorem mem_errOf (f : String) (i : DVal) (o : Option String) (e : VError)
    (h : e ∈ errOf f i o) : o = Option.some e.msg ∧ e.field = f ∧ e.input = i := by
  cases o with
  | none => simp [errOf] at h
  | some m =>
    simp [errOf] at h
    subst h
    exact ⟨rfl, rfl, rfl⟩

theorem validate_align_some (v : Int) (m : String)
    (h : SegmentModel.validate_align v = Option.some m) :
    m = "align must be in range 0-255, got " ++ toString v ∧ ¬(0 ≤ v ∧ v ≤ 255) := by
  by_cases hc : (0 ≤ v ∧ v ≤ 255) <;> simp [SegmentModel.validate_align, hc] at h
  exact ⟨h.symm, hc⟩

theorem validate_comb_some (v : Int) (m : String)
    (h : SegmentModel.validate_comb v = Option.some m) :
    m = "comb must be in range 0-255, got " ++ toString v ∧ ¬(0 ≤ v ∧ v ≤ 255) := by
  by_cases hc : (0 ≤ v ∧ v ≤ 255) <;> simp [SegmentModel.validate_comb, hc] at h
  exact ⟨h.symm, hc⟩

theorem validate_perm_some (v : Int) (m : String)
    (h : SegmentModel.validate_perm v = Option.some m) :
    m = "perm must be in range 0-255, got " ++ toString v ∧ ¬(0 ≤ v ∧ v ≤ 255) := by
  by_cases hc : (0 ≤ v ∧ v ≤ 255) <;> simp [SegmentModel.validate_perm, hc] at h
  exact ⟨h.symm, hc⟩

theorem validate_type_some (v : Int) (m : String)
    (h : SegmentModel.validate_type v = Option.some m) :
    m = "type must be in range 0-255, got " ++ toString v ∧ ¬(0 ≤ v ∧ v ≤ 255) := by
  by_cases hc : (0 ≤ v ∧ v ≤ 255) <;> simp [SegmentModel.validate_type, hc] at h
  exact ⟨h.symm, hc⟩

theorem validate_flags_some (v : Int) (m : String)
    (h : SegmentModel.validate_flags v = Option.some m) :
    m = "flags must be in range 0-65535, got " ++ toString v ∧ ¬(0 ≤ v ∧ v ≤ 65535) := by
  by_cases hc : (0 ≤ v ∧ v ≤ 65535) <;> simp [SegmentModel.validate_flags, hc] at h
  exact ⟨h.symm, hc⟩

theorem validate_bitness_some (v : Int) (m : String)
    (h : SegmentModel.validate_bitness v = Option.some m) :
    m = "bitness must be 0 (16bit), 1 (32bit), or 2 (64bit)" ∧ ¬(v = 0 ∨ v = 1 ∨ v = 2) := by
  by_cases hc : (v = 0 ∨ v = 1 ∨ v = 2) <;> simp [SegmentModel.validate_bitness, hc] at h
  exact ⟨h.symm, hc⟩

theorem validate_defsr_some (v : List Int) (m : String)
    (h : SegmentModel.validate_defsr_length v = Option.some m) :
    m = "defsr must have exactly 16 elements, got " ++ toString v.length ∧ v.length ≠ 16 := by
  by_cases hc : v.length = 16 <;> simp [SegmentModel.validate_defsr_length, hc] at h
  exact ⟨h.symm, hc⟩

/-- C9 counterexample: a bitness-domain failure does not state the rejected
value.  Rejecting `bitness=7` and `bitness=9` produces the very same
message — the fixed domain string, whose text does not contain `7` — so
the message cannot identify the rejected value; only the error's attached
input distinguishes the two failures. -/
theorem bitness_error_message_omits_value :
    SegmentModel.make 0 4096 0 0 0 16 1 7 7 8 0 (List.replicate 16 0) 2 0 Option.none Option.none
      = .error [⟨"bitness", "bitness must be 0 (16bit), 1 (32bit), or 2 (64bit)", .int 7⟩] ∧
    SegmentModel.make 0 4096 0 0 0 16 1 7 9 8 0 (List.replicate 16 0) 2 0 Option.none Option.none
      = .error [⟨"bitness", "bitness must be 0 (16bit), 1 (32bit), or 2 (64bit)", .int 9⟩] ∧
    ¬ ("7".data <:+: "bitness must be 0 (16bit), 1 (32bit), or 2 (64bit)".data) :=
  ⟨rfl, rfl, by decide⟩

/-- C9 amended: every validation failure of a `SegmentModel` construction
identifies the offending field — the error's location is the field's name
and that field's supplied value indeed violates its domain — and for
`align`, `comb`, `perm`, `type`, `flags` and `defsr` the message also
states the rejected value (`... got {v}`).  The `bitness` message states
only the allowed domain: the rejected value is attached to the error as
its input, not in the message text. -/
theorem make_errors_identify_field_and_value :
    ∀ (start_ea end_ea name sclass orgbase align comb perm bitness flags sel : Int)
      (defsr : List Int) (type color : Int) (segment_name segment_class : Option String)
      (errs : List VError) (e : VError),
      SegmentModel.make start_ea end_ea name sclass orgbase align comb perm bitness flags sel
          defsr type color segment_name segment_class = .error errs →
      e ∈ errs →
      (e.field = "align" → e.msg = "align must be in range 0-255, got " ++ toString align ∧
        e.input = .int align ∧ ¬(0 ≤ align ∧ align ≤ 255)) ∧
      (e.field = "comb" → e.msg = "comb must be in range 0-255, got " ++ toString comb ∧
        e.input = .int comb ∧ ¬(0 ≤ comb ∧ comb ≤ 255)) ∧
      (e.field = "perm" → e.msg = "perm must be in range 0-255, got " ++ toString perm ∧
        e.input = .int perm ∧ ¬(0 ≤ perm ∧ perm ≤ 255)) ∧
      (e.field = "bitness" → e.msg = "bitness must be 0 (16bit), 1 (32bit), or 2 (64bit)" ∧
        e.input = .int bitness ∧ ¬(bitness = 0 ∨ bitness = 1 ∨ bitness = 2)) ∧
      (e.field = "flags" → e.msg = "flags must be in range 0-65535, got " ++ toString flags ∧
        e.input = .int flags ∧ ¬(0 ≤ flags ∧ flags ≤ 65535)) ∧
      (e.field = "defsr" →
        e.msg = "defsr must have exactly 16 elements, got " ++ toString defsr.length ∧
        e.input = .list (defsr.map .int) ∧ defsr.length ≠ 16) ∧
      (e.field = "type" → e.msg = "type must be in range 0-255, got " ++ toString type ∧
        e.input = .int type ∧ ¬(0 ≤ type ∧ type ≤ 255)) ∧
      (e.field = "align" ∨ e.field = "comb" ∨ e.field = "perm" ∨ e.field = "bitness" ∨
       e.field = "flags" ∨ e.field = "defsr" ∨ e.field = "type") := by
  intro start_ea end_ea name sclass orgbase align comb perm bitness flags sel
    defsr type color segment_name segment_class errs e hmk hm
  have herrs : errs = SegmentModel.collectErrors align comb perm bitness flags defsr type := by
    rw [SegmentModel.make] at hmk
    split at hmk
    · cases hmk
    · injection hmk with h
      exact h.symm
  subst herrs
  simp only [SegmentModel.collectErrors, List.mem_append] at hm
  rcases hm with ((((((h | h) | h) | h) | h) | h) | h)
  · obtain ⟨hv, hf, hi⟩ := mem_errOf _ _ _ _ h
    obtain ⟨hmsg, hc⟩ := validate_align_some _ _ hv
    refine ⟨fun _ => ⟨hmsg, hi, hc⟩, ?_, ?_, ?_, ?_, ?_, ?_, Or.inl hf⟩ <;>
      (intro hx; rw [hf] at hx; exact absurd hx (by decide))
  · obtain ⟨hv, hf, hi⟩ := mem_errOf _ _ _ _ h
    obtain ⟨hmsg, hc⟩ := validate_comb_some _ _ hv
    refine ⟨?_, fun _ => ⟨hmsg, hi, hc⟩, ?_, ?_, ?_, ?_, ?_, Or.inr (Or.inl hf)⟩ <;>
      (intro hx; rw [hf] at hx; exact absurd hx (by decide))
  · obtain ⟨hv, hf, hi⟩ := mem_errOf _ _ _ _ h
    obtain ⟨hmsg, hc⟩ := validate_perm_some _ _ hv
    refine ⟨?_, ?_, fun _ => ⟨hmsg, hi, hc⟩, ?_, ?_, ?_, ?_, Or.inr (Or.inr (Or.inl hf))⟩ <;>
      (intro hx; rw [hf] at hx; exact absurd hx (by decide))
  · obtain ⟨hv, hf, hi⟩ := mem_errOf _ _ _ _ h
    obtain ⟨hmsg, hc⟩ := validate_bitness_some _ _ hv
    refine ⟨?_, ?_, ?_, fun _ => ⟨hmsg, hi, hc⟩, ?_, ?_, ?_,
      Or.inr (Or.inr (Or.inr (Or.inl hf)))⟩ <;>
      (intro hx; rw [hf] at hx; exact absurd hx (by decide))
  · obtain ⟨hv, hf, hi⟩ := mem_errOf _ _ _ _ h
    obtain ⟨hmsg, hc⟩ := validate_flags_some _ _ hv
    refine ⟨?_, ?_, ?_, ?_, fun _ => ⟨hmsg, hi, hc⟩, ?_, ?_,
      Or.inr (Or.inr (Or.inr (Or.inr (Or.inl hf))))⟩ <;>
      (intro hx; rw [hf] at hx; exact absurd hx (by decide))
  · obtain ⟨hv, hf, hi⟩ := mem_errOf _ _ _ _ h
    obtain ⟨hmsg, hc⟩ := validate_defsr_some _ _ hv
    refine ⟨?_, ?_, ?_, ?_, ?_, fun _ => ⟨hmsg, hi, hc⟩, ?_,
      Or.inr (Or.inr (Or.inr (Or.inr (Or.inr (Or.inl hf)))))⟩ <;>
      (intro hx; rw [hf] at hx; exact absurd hx (by decide))
  · obtain ⟨hv, hf, hi⟩ := mem_errOf _ _ _ _ h
    obtain ⟨hmsg, hc⟩ := validate_type_some _ _ hv
    refine ⟨?_, ?_, ?_, ?_, ?_, ?_, fun _ => ⟨hmsg, hi, hc⟩,
      Or.inr (Or.inr (Or.inr (Or.inr (Or.inr (Or.inr hf)))))⟩ <;>
      (intro hx; rw [hf] at hx; exact absurd hx (by decide))

/-- Witness for `make_errors_identify_field_and_value`: instantiated at a
construction whose `align=999` is the single out-of-domain field, the
resulting error carries the field name, the message stating 999, and the
input 999. -/
theorem make_errors_identify_field_and_value_witness :
    (⟨"align", "align must be in range 0-255, got 999", .int 999⟩ : VError).msg
      = "align must be in range 0-255, got " ++ toString (999 : Int) ∧
    (⟨"align", "align must be in range 0-255, got 999", .int 999⟩ : VError).input
      = .int 999 ∧
    ¬((0 : Int) ≤ 999 ∧ (999 : Int) ≤ 255) := by
  have h := make_errors_identify_field_and_value 0 0 0 0 0 999 1 1 2 0 0
    (List.replicate 16 0) 0 0 Option.none Option.none
    [⟨"align", "align must be in range 0-255, got 999", .int 999⟩]
    ⟨"align", "align must be in range 0-255, got 999", .int 999⟩
    rfl (List.mem_singleton.mpr rfl)
  exact h.1 rfl

/-- Modelled from the spec: the repository defines no serializer, so this
development implements the persisted-shape contract of spec §6 — optional
fields serialize to a present/absent marker (`DVal.none` versus a string),
distinct from an empty value. -/
def dumpOptStr : Option String → DVal
  | Option.none => DVal.none
  | Option.some s => DVal.str s

/-- Parse of an optional string: the inverse of `dumpOptStr`. -/
def parseOptStr : DVal → Option (Option String)
  | DVal.none => Option.some Option.none
  | DVal.str s => Option.some (Option.some s)
  | _ => Option.none

/-- Serialization of an integer list (fixed arrays such as `defsr` serialize
in full, in slot order). -/
def dumpIntList (l : List Int) : DVal :=
  .list (l.map DVal.int)

/-- Parse of a serialized integer. -/
def parseInt : DVal → Option Int
  | DVal.int i => Option.some i
  | _ => Option.none

/-- Parse of a serialized integer list. -/
def parseIntList : DVal → Option (List Int)
  | DVal.list l => l.mapM parseInt
  | _ => Option.none

/-- Modelled from the spec: serialization of a `FuncModel`, all fields in
declaration order. -/
def dumpFunc (m : FuncModel) : DVal :=
  .list [.int m.start_ea, .int m.end_ea, .int m.flags, .int m.frame, .int m.frsize,
         .int m.frregs, .int m.argsize, .int m.fpd, .int m.color, .int m.pntqty,
         .int m.regvarqty, .int m.regargqty, .int m.tailqty, .int m.owner,
         .int m.refqty, dumpOptStr m.name]

/-- Parse of a serialized `FuncModel`. -/
def parseFunc : DVal → Option FuncModel
  | .list [.int a1, .int a2, .int a3, .int a4, .int a5, .int a6, .int a7, .int a8,
           .int a9, .int a10, .int a11, .int a12, .int a13, .int a14, .int a15, nm] =>
      (parseOptStr nm).map fun n =>
        ⟨a1, a2, a3, a4, a5, a6, a7, a8, a9, a10, a11, a12, a13, a14, a15, n⟩
  | _ => Option.none

/-- Modelled from the spec: serialization of an `OpModel`. -/
def dumpOp (m : OpModel) : DVal :=
  .list [.int m.n, .int m.type, .int m.offb, .int m.offo, .int m.flags, .int m.dtype,
         .int m.reg, .int m.phrase, .int m.value, .int m.addr, .int m.specval,
         .int m.specflag1, .int m.specflag2, .int m.specflag3, .int m.specflag4]

/-- Parse of a serialized `OpModel`. -/
def parseOp : DVal → Option OpModel
  | .list [.int a1, .int a2, .int a3, .int a4, .int a5, .int a6, .int a7, .int a8,
           .int a9, .int a10, .int a11, .int a12, .int a13, .int a14, .int a15] =>
      Option.some ⟨a1, a2, a3, a4, a5, a6, a7, a8, a9, a10, a11, a12, a13, a14, a15⟩
  | _ => Option.none

/-- Modelled from the spec: serialization of an `InsnModel`, the 8-entry
operand array serialized in full, in slot order. -/
def dumpInsn (m : InsnModel) : DVal :=
  .list [.int m.cs, .int m.ip, .int m.ea, .int m.itype, .int m.size, .int m.auxpref,
         dumpIntList m.auxpref_u16, dumpIntList m.auxpref_u8, .int m.segpref,
         .int m.insnpref, .int m.flags, .list (m.ops.map dumpOp)]

/-- Parse of a serialized `InsnModel`. -/
def parseInsn : DVal → Option InsnModel
  | .list [.int a1, .int a2, .int a3, .int a4, .int a5, .int a6, u16, u8, .int a9,
           .int a10, .int a11, .list ops] =>
      match parseIntList u16, parseIntList u8, ops.mapM parseOp with
      | Option.some l16, Option.some l8, Option.some lops =>
          Option.some ⟨a1, a2, a3, a4, a5, a6, l16, l8, a9, a10, a11, lops⟩
      | _, _, _ => Option.none
  | _ => Option.none

/-- Modelled from the spec: serialization of a `SegmentModel`, the 16-entry
`defsr` table serialized in full, the two optional strings with their
present/absent markers. -/
def dumpSegment (m : SegmentModel) : DVal :=
  .list [.int m.start_ea, .int m.end_ea, .int m.name, .int m.sclass, .int m.orgbase,
         .int m.align, .int m.comb, .int m.perm, .int m.bitness, .int m.flags,
         .int m.sel, dumpIntList m.defsr, .int m.type, .int m.color,
         dumpOptStr m.segment_name, dumpOptStr m.segment_class]

/-- Parse of a serialized `SegmentModel`. -/
def parseSegment : DVal → Option SegmentModel
  | .list [.int a1, .int a2, .int a3, .int a4, .int a5, .int a6, .int a7, .int a8,
           .int a9, .int a10, .int a11, d, .int a13, .int a14, sn, sc] =>
      match parseIntList d, parseOptStr sn, parseOptStr sc with
      | Option.some dl, Option.some n1, Option.some n2 =>
          Option.some ⟨a1, a2, a3, a4, a5, a6, a7, a8, a9, a10, a11, dl, a13, a14, n1, n2⟩
      | _, _, _ => Option.none
  | _ => Option.none

/-- Modelled from the spec: serialization of a `RangeModel`. -/
def dumpRange (m : RangeModel) : DVal :=
  .list [.int m.start_ea, .int m.end_ea]

/-- Parse of a serialized `RangeModel`. -/
def parseRange : DVal → Option RangeModel
  | .list [.int a1, .int a2] => Option.some ⟨a1, a2⟩
  | _ => Option.none

/-- Modelled from the spec: serialization of a `UdmModel`. -/
def dumpUdm (m : UdmModel) : DVal :=
  .list [.int m.offset, .int m.size, .str m.name, .str m.cmt, .int m.tid,
         .str m.repr, .int m.effalign, .int m.tafld_bits, .int m.fda]

/-- Parse of a serialized `UdmModel`. -/
def parseUdm : DVal → Option UdmModel
  | .list [.int a1, .int a2, .str s1, .str s2, .int a3, .str s3, .int a4, .int a5,
           .int a6] => Option.some ⟨a1, a2, s1, s2, a3, s3, a4, a5, a6⟩
  | _ => Option.none

/-- Modelled from the spec: serialization of an `EdmModel`. -/
def dumpEdm (m : EdmModel) : DVal :=
  .list [.str m.name, .str m.comment, .int m.value, .int m.tid]

/-- Parse of a serialized `EdmModel`. -/
def parseEdm : DVal → Option EdmModel
  | .list [.str s1, .str s2, .int a1, .int a2] => Option.some ⟨s1, s2, a1, a2⟩
  | _ => Option.none

theorem parseOptStr_dumpOptStr (o : Option String) :
    parseOptStr (dumpOptStr o) = Option.some o := by
  cases o <;> rfl

theorem mapM_loop_parse_map {α : Type} (f : α → DVal) (g : DVal → Option α)
    (hrt : ∀ a, g (f a) = Option.some a) :
    ∀ (l : List α) (acc : List α),
      List.mapM.loop g (l.map f) acc = Option.some (acc.reverse ++ l) := by
  intro l
  induction l with
  | nil => intro acc; simp [List.mapM.loop]
  | cons a t ih => intro acc; simp [List.mapM.loop, hrt, ih]

theorem mapM_parse_map {α : Type} (f : α → DVal) (g : DVal → Option α)
    (hrt : ∀ a, g (f a) = Option.some a) :
    ∀ l : List α, (l.map f).mapM g = Option.some l := by
  intro l
  simpa using mapM_loop_parse_map f g hrt l []

theorem parseIntList_dumpIntList (l : List Int) :
    parseIntList (dumpIntList l) = Option.some l := by
  simp [parseIntList, dumpIntList,
    mapM_loop_parse_map DVal.int parseInt (fun _ => rfl)]

theorem parseFunc_dumpFunc (m : FuncModel) : parseFunc (dumpFunc m) = Option.some m := by
  cases m with
  | mk a1 a2 a3 a4 a5 a6 a7 a8 a9 a10 a11 a12 a13 a14 a15 nm => cases nm <;> rfl

theorem parseOp_dumpOp (m : OpModel) : parseOp (dumpOp m) = Option.some m := rfl

theorem parseOps_dumpOps (l : List OpModel) :
    (l.map dumpOp).mapM parseOp = Option.some l :=
  mapM_parse_map dumpOp parseOp parseOp_dumpOp l

theorem parseInsn_dumpInsn (m : InsnModel) : parseInsn (dumpInsn m) = Option.some m := by
  cases m
  simp [dumpInsn, parseInsn, parseIntList_dumpIntList,
    mapM_loop_parse_map dumpOp parseOp parseOp_dumpOp]

theorem parseSegment_dumpSegment (m : SegmentModel) :
    parseSegment (dumpSegment m) = Option.some m := by
  cases m
  simp [dumpSegment, parseSegment, parseIntList_dumpIntList, parseOptStr_dumpOptStr]

theorem parseRange_dumpRange (m : RangeModel) : parseRange (dumpRange m) = Option.some m := rfl

theorem parseUdm_dumpUdm (m : UdmModel) : parseUdm (dumpUdm m) = Option.some m := rfl

theorem parseEdm_dumpEdm (m : EdmModel) : parseEdm (dumpEdm m) = Option.some m := rfl

/-- The closed union `idb_event` (source lines 888-968): one variant per
event record class.  Each constructor carries the class's pydantic model
fields in declaration order: the `event_name` discriminant is the
constructor itself (serialized as the tag literal), every event carries its
capture `timestamp`, `Any`-typed fields are opaque `DVal`s.  The `_from`
annotations of `segm_moved_event` and `dirtree_move_event` are pydantic
private attributes (leading underscore), not model fields, hence not
carried. -/
inductive idb_event where
  | adding_segm_event (timestamp : datetime) (s : SegmentModel)
  | segm_added_event (timestamp : datetime) (s : SegmentModel)
  | deleting_segm_event (timestamp : datetime) (start_ea : Int)
  | segm_deleted_event (timestamp : datetime) (start_ea end_ea flags : Int)
  | changing_segm_start_event (timestamp : datetime) (s : SegmentModel) (new_start segmod_flags : Int)
  | segm_start_changed_event (timestamp : datetime) (s : SegmentModel) (oldstart : Int)
  | changing_segm_end_event (timestamp : datetime) (s : SegmentModel) (new_end segmod_flags : Int)
  | segm_end_changed_event (timestamp : datetime) (s : SegmentModel) (oldend : Int)
  | changing_segm_name_event (timestamp : datetime) (s : SegmentModel) (oldname : String)
  | segm_name_changed_event (timestamp : datetime) (s : SegmentModel) (name : String)
  | changing_segm_class_event (timestamp : datetime) (s : SegmentModel)
  | segm_class_changed_event (timestamp : datetime) (s : SegmentModel) (sclass : String)
  | segm_attrs_updated_event (timestamp : datetime) (s : SegmentModel)
  | segm_moved_event (timestamp : datetime) («to» size : Int) (changed_netmap : Bool)
  | allsegs_moved_event (timestamp : datetime) (info : DVal)
  | func_added_event (timestamp : datetime) (pfn : FuncModel)
  | func_updated_event (timestamp : datetime) (pfn : FuncModel)
  | set_func_start_event (timestamp : datetime) (pfn : FuncModel) (new_start : Int)
  | set_func_end_event (timestamp : datetime) (pfn : FuncModel) (new_end : Int)
  | deleting_func_event (timestamp : datetime) (pfn : FuncModel)
  | func_deleted_event (timestamp : datetime) (func_ea : Int)
  | thunk_func_created_event (timestamp : datetime) (pfn : FuncModel)
  | func_tail_appended_event (timestamp : datetime) (pfn : FuncModel) (tail : FuncModel)
  | deleting_func_tail_event (timestamp : datetime) (pfn : FuncModel) (tail : RangeModel)
  | func_tail_deleted_event (timestamp : datetime) (pfn : FuncModel) (tail_ea : Int)
  | tail_owner_changed_event (timestamp : datetime) (tail : FuncModel) (owner_func old_owner : Int)
  | func_noret_changed_event (timestamp : datetime) (pfn : FuncModel)
  | updating_tryblks_event (timestamp : datetime) (tbv : DVal)
  | tryblks_updated_event (timestamp : datetime) (tbv : DVal)
  | deleting_tryblks_event (timestamp : datetime) (range : RangeModel)
  | changing_cmt_event (timestamp : datetime) (ea : Int) (repeatable_cmt : Bool) (newcmt : String)
  | cmt_changed_event (timestamp : datetime) (ea : Int) (repeatable_cmt : Bool)
  | changing_range_cmt_event (timestamp : datetime) (kind : DVal) (a : RangeModel) (cmt : String) (repeatable : Bool)
  | range_cmt_changed_event (timestamp : datetime) (kind : DVal) (a : RangeModel) (cmt : String) (repeatable : Bool)
  | extra_cmt_changed_event (timestamp : datetime) (ea line_idx : Int) (cmt : String)
  | sgr_changed_event (timestamp : datetime) (start_ea end_ea regnum : Int) (value old_value : DVal) (tag : Int)
  | sgr_deleted_event (timestamp : datetime) (start_ea end_ea regnum : Int)
  | make_code_event (timestamp : datetime) (insn : InsnModel)
  | make_data_event (timestamp : datetime) (ea flags tid len : Int)
  | destroyed_items_event (timestamp : datetime) (ea1 ea2 : Int) (will_disable_range : Bool)
  | renamed_event (timestamp : datetime) (ea : Int) (new_name : String) (local_name : Bool) (old_name : String)
  | byte_patched_event (timestamp : datetime) (ea old_value : Int)
  | item_color_changed_event (timestamp : datetime) (ea : Int) (color : DVal)
  | callee_addr_changed_event (timestamp : datetime) (ea callee : Int)
  | bookmark_changed_event (timestamp : datetime) (index ea : Int) (desc : String) (operation : Int)
  | changing_op_type_event (timestamp : datetime) (ea n : Int) (opinfo : DVal)
  | op_type_changed_event (timestamp : datetime) (ea n : Int)
  | dirtree_mkdir_event (timestamp : datetime) (path : String)
  | dirtree_rmdir_event (timestamp : datetime) (path : String)
  | dirtree_link_event (timestamp : datetime) (path : String) (link : Bool)
  | dirtree_move_event (timestamp : datetime) («to» : String)
  | dirtree_rank_event (timestamp : datetime) (path : String) (rank : Int)
  | dirtree_rminode_event (timestamp : datetime) (inode : Int)
  | dirtree_segm_moved_event (timestamp : datetime)
  | changing_ti_event (timestamp : datetime) (ea : Int) (new_type new_fnames : DVal)
  | ti_changed_event (timestamp : datetime) (ea : Int) (type fnames : DVal)
  | changing_op_ti_event (timestamp : datetime) (ea n : Int) (new_type new_fnames : DVal)
  | op_ti_changed_event (timestamp : datetime) (ea n : Int) (type fnames : DVal)
  | local_types_changed_event (timestamp : datetime) (ltc : DVal) (ordinal : Int) (name : String)
  | lt_udm_created_event (timestamp : datetime) (udtname : String) (udm : UdmModel)
  | lt_udm_deleted_event (timestamp : datetime) (udtname : String) (udm_tid : Int) (udm : UdmModel)
  | lt_udm_renamed_event (timestamp : datetime) (udtname : String) (udm : UdmModel) (oldname : String)
  | lt_udm_changed_event (timestamp : datetime) (udtname : String) (udm_tid : Int) (udmold udmnew : UdmModel)
  | lt_udt_expanded_event (timestamp : datetime) (udtname : String) (udm_tid delta : Int)
  | lt_edm_created_event (timestamp : datetime) (enumname : String) (edm : EdmModel)
  | lt_edm_deleted_event (timestamp : datetime) (enumname : String) (edm_tid : Int) (edm : EdmModel)
  | lt_edm_renamed_event (timestamp : datetime) (enumname : String) (edm : EdmModel) (oldname : String)
  | lt_edm_changed_event (timestamp : datetime) (enumname : String) (edm_tid : Int) (edmold edmnew : EdmModel)
  | stkpnts_changed_event (timestamp : datetime) (pfn : FuncModel)
  | frame_created_event (timestamp : datetime) (func_ea : Int)
  | frame_expanded_event (timestamp : datetime) (func_ea udm_tid delta : Int)
  | frame_deleted_event (timestamp : datetime) (pfn : FuncModel)
  | frame_udm_created_event (timestamp : datetime) (func_ea : Int) (udm : UdmModel)
  | frame_udm_deleted_event (timestamp : datetime) (func_ea udm_tid : Int) (udm : UdmModel)
  | frame_udm_renamed_event (timestamp : datetime) (func_ea : Int) (udm : UdmModel) (oldname : String)
  | frame_udm_changed_event (timestamp : datetime) (func_ea udm_tid : Int) (udmold udmnew : UdmModel)
  | determined_main_event (timestamp : datetime) (main : Int)
  | extlang_changed_event (timestamp : datetime) (kind : Int) (el : DVal) (idx : Int)
  | idasgn_matched_ea_event (timestamp : datetime) (ea : Int) (name lib_name : String)

/-- Modelled from the spec: the serialized shape of an event (§6) — a record
holding the discriminant tag literal, the timestamp, then the kind-specific
payload fields in class-declaration order; snapshot sub-objects serialize
through their dump functions, `Any` fields pass through opaquely. -/
def dump_event : idb_event → DVal
  | .adding_segm_event ts s => .list [.str "adding_segm", .int ts, dumpSegment s]
  | .segm_added_event ts s => .list [.str "segm_added", .int ts, dumpSegment s]
  | .deleting_segm_event ts a => .list [.str "deleting_segm", .int ts, .int a]
  | .segm_deleted_event ts a b f => .list [.str "segm_deleted", .int ts, .int a, .int b, .int f]
  | .changing_segm_start_event ts s ns sf =>
      .list [.str "changing_segm_start", .int ts, dumpSegment s, .int ns, .int sf]
  | .segm_start_changed_event ts s os =>
      .list [.str "segm_start_changed", .int ts, dumpSegment s, .int os]
  | .changing_segm_end_event ts s ne sf =>
      .list [.str "changing_segm_end", .int ts, dumpSegment s, .int ne, .int sf]
  | .segm_end_changed_event ts s oe =>
      .list [.str "segm_end_changed", .int ts, dumpSegment s, .int oe]
  | .changing_segm_name_event ts s onm =>
      .list [.str "changing_segm_name", .int ts, dumpSegment s, .str onm]
  | .segm_name_changed_event ts s nm =>
      .list [.str "segm_name_changed", .int ts, dumpSegment s, .str nm]
  | .changing_segm_class_event ts s => .list [.str "changing_segm_class", .int ts, dumpSegment s]
  | .segm_class_changed_event ts s sc =>
      .list [.str "segm_class_changed", .int ts, dumpSegment s, .str sc]
  | .segm_attrs_updated_event ts s => .list [.str "segm_attrs_updated", .int ts, dumpSegment s]
  | .segm_moved_event ts t sz cn => .list [.str "segm_moved", .int ts, .int t, .int sz, .bool cn]
  | .allsegs_moved_event ts info => .list [.str "allsegs_moved", .int ts, info]
  | .func_added_event ts p => .list [.str "func_added", .int ts, dumpFunc p]
  | .func_updated_event ts p => .list [.str "func_updated", .int ts, dumpFunc p]
  | .set_func_start_event ts p ns => .list [.str "set_func_start", .int ts, dumpFunc p, .int ns]
  | .set_func_end_event ts p ne => .list [.str "set_func_end", .int ts, dumpFunc p, .int ne]
  | .deleting_func_event ts p => .list [.str "deleting_func", .int ts, dumpFunc p]
  | .func_deleted_event ts fe => .list [.str "func_deleted", .int ts, .int fe]
  | .thunk_func_created_event ts p => .list [.str "thunk_func_created", .int ts, dumpFunc p]
  | .func_tail_appended_event ts p t =>
      .list [.str "func_tail_appended", .int ts, dumpFunc p, dumpFunc t]
  | .deleting_func_tail_event ts p t =>
      .list [.str "deleting_func_tail", .int ts, dumpFunc p, dumpRange t]
  | .func_tail_deleted_event ts p te =>
      .list [.str "func_tail_deleted", .int ts, dumpFunc p, .int te]
  | .tail_owner_changed_event ts t ofn oo =>
      .list [.str "tail_owner_changed", .int ts, dumpFunc t, .int ofn, .int oo]
  | .func_noret_changed_event ts p => .list [.str "func_noret_changed", .int ts, dumpFunc p]
  | .updating_tryblks_event ts v => .list [.str "updating_tryblks", .int ts, v]
  | .tryblks_updated_event ts v => .list [.str "tryblks_updated", .int ts, v]
  | .deleting_tryblks_event ts r => .list [.str "deleting_tryblks", .int ts, dumpRange r]
  | .changing_cmt_event ts ea rc nc =>
      .list [.str "changing_cmt", .int ts, .int ea, .bool rc, .str nc]
  | .cmt_changed_event ts ea rc => .list [.str "cmt_changed", .int ts, .int ea, .bool rc]
  | .changing_range_cmt_event ts k a c r =>
      .list [.str "changing_range_cmt", .int ts, k, dumpRange a, .str c, .bool r]
  | .range_cmt_changed_event ts k a c r =>
      .list [.str "range_cmt_changed", .int ts, k, dumpRange a, .str c, .bool r]
  | .extra_cmt_changed_event ts ea li c =>
      .list [.str "extra_cmt_changed", .int ts, .int ea, .int li, .str c]
  | .sgr_changed_event ts a b rn v ov tg =>
      .list [.str "sgr_changed", .int ts, .int a, .int b, .int rn, v, ov, .int tg]
  | .sgr_deleted_event ts a b rn => .list [.str "sgr_deleted", .int ts, .int a, .int b, .int rn]
  | .make_code_event ts i => .list [.str "make_code", .int ts, dumpInsn i]
  | .make_data_event ts ea f t l =>
      .list [.str "make_data", .int ts, .int ea, .int f, .int t, .int l]
  | .destroyed_items_event ts a b w =>
      .list [.str "destroyed_items", .int ts, .int a, .int b, .bool w]
  | .renamed_event ts ea nn ln onm =>
      .list [.str "renamed", .int ts, .int ea, .str nn, .bool ln, .str onm]
  | .byte_patched_event ts ea ov => .list [.str "byte_patched", .int ts, .int ea, .int ov]
  | .item_color_changed_event ts ea c => .list [.str "item_color_changed", .int ts, .int ea, c]
  | .callee_addr_changed_event ts ea ca =>
      .list [.str "callee_addr_changed", .int ts, .int ea, .int ca]
  | .bookmark_changed_event ts ix ea d op =>
      .list [.str "bookmark_changed", .int ts, .int ix, .int ea, .str d, .int op]
  | .changing_op_type_event ts ea n oi =>
      .list [.str "changing_op_type", .int ts, .int ea, .int n, oi]
  | .op_type_changed_event ts ea n => .list [.str "op_type_changed", .int ts, .int ea, .int n]
  | .dirtree_mkdir_event ts p => .list [.str "dirtree_mkdir", .int ts, .str p]
  | .dirtree_rmdir_event ts p => .list [.str "dirtree_rmdir", .int ts, .str p]
  | .dirtree_link_event ts p l => .list [.str "dirtree_link", .int ts, .str p, .bool l]
  | .dirtree_move_event ts t => .list [.str "dirtree_move", .int ts, .str t]
  | .dirtree_rank_event ts p r => .list [.str "dirtree_rank", .int ts, .str p, .int r]
  | .dirtree_rminode_event ts i => .list [.str "dirtree_rminode", .int ts, .int i]
  | .dirtree_segm_moved_event ts => .list [.str "dirtree_segm_moved", .int ts]
  | .changing_ti_event ts ea nt nf => .list [.str "changing_ti", .int ts, .int ea, nt, nf]
  | .ti_changed_event ts ea t f => .list [.str "ti_changed", .int ts, .int ea, t, f]
  | .changing_op_ti_event ts ea n nt nf =>
      .list [.str "changing_op_ti", .int ts, .int ea, .int n, nt, nf]
  | .op_ti_changed_event ts ea n t f =>
      .list [.str "op_ti_changed", .int ts, .int ea, .int n, t, f]
  | .local_types_changed_event ts l o nm =>
      .list [.str "local_types_changed", .int ts, l, .int o, .str nm]
  | .lt_udm_created_event ts un u => .list [.str "lt_udm_created", .int ts, .str un, dumpUdm u]
  | .lt_udm_deleted_event ts un ut u =>
      .list [.str "lt_udm_deleted", .int ts, .str un, .int ut, dumpUdm u]
  | .lt_udm_renamed_event ts un u onm =>
      .list [.str "lt_udm_renamed", .int ts, .str un, dumpUdm u, .str onm]
  | .lt_udm_changed_event ts un ut uo uw =>
      .list [.str "lt_udm_changed", .int ts, .str un, .int ut, dumpUdm uo, dumpUdm uw]
  | .lt_udt_expanded_event ts un ut d =>
      .list [.str "lt_udt_expanded", .int ts, .str un, .int ut, .int d]
  | .lt_edm_created_event ts en e => .list [.str "lt_edm_created", .int ts, .str en, dumpEdm e]
  | .lt_edm_deleted_event ts en et e =>
      .list [.str "lt_edm_deleted", .int ts, .str en, .int et, dumpEdm e]
  | .lt_edm_renamed_event ts en e onm =>
      .list [.str "lt_edm_renamed", .int ts, .str en, dumpEdm e, .str onm]
  | .lt_edm_changed_event ts en et eo ew =>
      .list [.str "lt_edm_changed", .int ts, .str en, .int et, dumpEdm eo, dumpEdm ew]
  | .stkpnts_changed_event ts p => .list [.str "stkpnts_changed", .int ts, dumpFunc p]
  | .frame_created_event ts fe => .list [.str "frame_created", .int ts, .int fe]
  | .frame_expanded_event ts fe ut d =>
      .list [.str "frame_expanded", .int ts, .int fe, .int ut, .int d]
  | .frame_deleted_event ts p => .list [.str "frame_deleted", .int ts, dumpFunc p]
  | .frame_udm_created_event ts fe u =>
      .list [.str "frame_udm_created", .int ts, .int fe, dumpUdm u]
  | .frame_udm_deleted_event ts fe ut u =>
      .list [.str "frame_udm_deleted", .int ts, .int fe, .int ut, dumpUdm u]
  | .frame_udm_renamed_event ts fe u onm =>
      .list [.str "frame_udm_renamed", .int ts, .int fe, dumpUdm u, .str onm]
  | .frame_udm_changed_event ts fe ut uo uw =>
      .list [.str "frame_udm_changed", .int ts, .int fe, .int ut, dumpUdm uo, dumpUdm uw]
  | .determined_main_event ts m => .list [.str "determined_main", .int ts, .int m]
  | .extlang_changed_event ts k e i => .list [.str "extlang_changed", .int ts, .int k, e, .int i]
  | .idasgn_matched_ea_event ts ea nm ln =>
      .list [.str "idasgn_matched_ea", .int ts, .int ea, .str nm, .str ln]

/-- Modelled from the spec: payload deserialization — given the discriminant
tag, the timestamp and the serialized kind-specific fields, rebuilds
exactly the event variant the tag selects; a tag outside the taxonomy or a
malformed payload parses to `none`. -/
def parse_payload (tag : String) (ts : Int) (rest : List DVal) : Option idb_event :=
  if tag = "adding_segm" then
    match rest with
    | [sv] => (parseSegment sv).map fun s => .adding_segm_event ts s
    | _ => Option.none
  else if tag = "segm_added" then
    match rest with
    | [sv] => (parseSegment sv).map fun s => .segm_added_event ts s
    | _ => Option.none
  else if tag = "deleting_segm" then
    match rest with
    | [.int a] => Option.some (.deleting_segm_event ts a)
    | _ => Option.none
  else if tag = "segm_deleted" then
    match rest with
    | [.int a, .int b, .int f] => Option.some (.segm_deleted_event ts a b f)
    | _ => Option.none
  else if tag = "changing_segm_start" then
    match rest with
    | [sv, .int ns, .int sf] =>
        (parseSegment sv).map fun s => .changing_segm_start_event ts s ns sf
    | _ => Option.none
  else if tag = "segm_start_changed" then
    match rest with
    | [sv, .int os] => (parseSegment sv).map fun s => .segm_start_changed_event ts s os
    | _ => Option.none
  else if tag = "changing_segm_end" then
    match rest with
    | [sv, .int ne, .int sf] =>
        (parseSegment sv).map fun s => .changing_segm_end_event ts s ne sf
    | _ => Option.none
  else if tag = "segm_end_changed" then
    match rest with
    | [sv, .int oe] => (parseSegment sv).map fun s => .segm_end_changed_event ts s oe
    | _ => Option.none
  else if tag = "changing_segm_name" then
    match rest with
    | [sv, .str onm] => (parseSegment sv).map fun s => .changing_segm_name_event ts s onm
    | _ => Option.none
  else if tag = "segm_name_changed" then
    match rest with
    | [sv, .str nm] => (parseSegment sv).map fun s => .segm_name_changed_event ts s nm
    | _ => Option.none
  else if tag = "changing_segm_class" then
    match rest with
    | [sv] => (parseSegment sv).map fun s => .changing_segm_class_event ts s
    | _ => Option.none
  else if tag = "segm_class_changed" then
    match rest with
    | [sv, .str sc] => (parseSegment sv).map fun s => .segm_class_changed_event ts s sc
    | _ => Option.none
  else if tag = "segm_attrs_updated" then
    match rest with
    | [sv] => (parseSegment sv).map fun s => .segm_attrs_updated_event ts s
    | _ => Option.none
  else if tag = "segm_moved" then
    match rest with
    | [.int t, .int sz, .bool cn] => Option.some (.segm_moved_event ts t sz cn)
    | _ => Option.none
  else if tag = "allsegs_moved" then
    match rest with
    | [info] => Option.some (.allsegs_moved_event ts info)
    | _ => Option.none
  else if tag = "func_added" then
    match rest with
    | [pv] => (parseFunc pv).map fun p => .func_added_event ts p
    | _ => Option.none
  else if tag = "func_updated" then
    match rest with
    | [pv] => (parseFunc pv).map fun p => .func_updated_event ts p
    | _ => Option.none
  else if tag = "set_func_start" then
    match rest with
    | [pv, .int ns] => (parseFunc pv).map fun p => .set_func_start_event ts p ns
    | _ => Option.none
  else if tag = "set_func_end" then
    match rest with
    | [pv, .int ne] => (parseFunc pv).map fun p => .set_func_end_event ts p ne
    | _ => Option.none
  else if tag = "deleting_func" then
    match rest with
    | [pv] => (parseFunc pv).map fun p => .deleting_func_event ts p
    | _ => Option.none
  else if tag = "func_deleted" then
    match rest with
    | [.int fe] => Option.some (.func_deleted_event ts fe)
    | _ => Option.none
  else if tag = "thunk_func_created" then
    match rest with
    | [pv] => (parseFunc pv).map fun p => .thunk_func_created_event ts p
    | _ => Option.none
  else if tag = "func_tail_appended" then
    match rest with
    | [pv, tv] =>
        match parseFunc pv, parseFunc tv with
        | Option.some p, Option.some t => Option.some (.func_tail_appended_event ts p t)
        | _, _ => Option.none
    | _ => Option.none
  else if tag = "deleting_func_tail" then
    match rest with
    | [pv, tv] =>
        match parseFunc pv, parseRange tv with
        | Option.some p, Option.some t => Option.some (.deleting_func_tail_event ts p t)
        | _, _ => Option.none
    | _ => Option.none
  else if tag = "func_tail_deleted" then
    match rest with
    | [pv, .int te] => (parseFunc pv).map fun p => .func_tail_deleted_event ts p te
    | _ => Option.none
  else if tag = "tail_owner_changed" then
    match rest with
    | [tv, .int ofn, .int oo] =>
        (parseFunc tv).map fun t => .tail_owner_changed_event ts t ofn oo
    | _ => Option.none
  else if tag = "func_noret_changed" then
    match rest with
    | [pv] => (parseFunc pv).map fun p => .func_noret_changed_event ts p
    | _ => Option.none
  else if tag = "updating_tryblks" then
    match rest with
    | [v] => Option.some (.updating_tryblks_event ts v)
    | _ => Option.none
  else if tag = "tryblks_updated" then
    match rest with
    | [v] => Option.some (.tryblks_updated_event ts v)
    | _ => Option.none
  else if tag = "deleting_tryblks" then
    match rest with
    | [rv] => (parseRange rv).map fun r => .deleting_tryblks_event ts r
    | _ => Option.none
  else if tag = "changing_cmt" then
    match rest with
    | [.int ea, .bool rc, .str nc] => Option.some (.changing_cmt_event ts ea rc nc)
    | _ => Option.none
  else if tag = "cmt_changed" then
    match rest with
    | [.int ea, .bool rc] => Option.some (.cmt_changed_event ts ea rc)
    | _ => Option.none
  else if tag = "changing_range_cmt" then
    match rest with
    | [k, av, .str c, .bool r] =>
        (parseRange av).map fun a => .changing_range_cmt_event ts k a c r
    | _ => Option.none
  else if tag = "range_cmt_changed" then
    match rest with
    | [k, av, .str c, .bool r] =>
        (parseRange av).map fun a => .range_cmt_changed_event ts k a c r
    | _ => Option.none
  else if tag = "extra_cmt_changed" then
    match rest with
    | [.int ea, .int li, .str c] => Option.some (.extra_cmt_changed_event ts ea li c)
    | _ => Option.none
  else if tag = "sgr_changed" then
    match rest with
    | [.int a, .int b, .int rn, v, ov, .int tg] =>
        Option.some (.sgr_changed_event ts a b rn v ov tg)
    | _ => Option.none
  else if tag = "sgr_deleted" then
    match rest with
    | [.int a, .int b, .int rn] => Option.some (.sgr_deleted_event ts a b rn)
    | _ => Option.none
  else if tag = "make_code" then
    match rest with
    | [iv] => (parseInsn iv).map fun i => .make_code_event ts i
    | _ => Option.none
  else if tag = "make_data" then
    match rest with
    | [.int ea, .int f, .int t, .int l] => Option.some (.make_data_event ts ea f t l)
    | _ => Option.none
  else if tag = "destroyed_items" then
    match rest with
    | [.int a, .int b, .bool w] => Option.some (.destroyed_items_event ts a b w)
    | _ => Option.none
  else if tag = "renamed" then
    match rest with
    | [.int ea, .str nn, .bool ln, .str onm] =>
        Option.some (.renamed_event ts ea nn ln onm)
    | _ => Option.none
  else if tag = "byte_patched" then
    match rest with
    | [.int ea, .int ov] => Option.some (.byte_patched_event ts ea ov)
    | _ => Option.none
  else if tag = "item_color_changed" then
    match rest with
    | [.int ea, c] => Option.some (.item_color_changed_event ts ea c)
    | _ => Option.none
  else if tag = "callee_addr_changed" then
    match rest with
    | [.int ea, .int ca] => Option.some (.callee_addr_changed_event ts ea ca)
    | _ => Option.none
  else if tag = "bookmark_changed" then
    match rest with
    | [.int ix, .int ea, .str d, .int op] =>
        Option.some (.bookmark_changed_event ts ix ea d op)
    | _ => Option.none
  else if tag = "changing_op_type" then
    match rest with
    | [.int ea, .int n, oi] => Option.some (.changing_op_type_event ts ea n oi)
    | _ => Option.none
  else if tag = "op_type_changed" then
    match rest with
    | [.int ea, .int n] => Option.some (.op_type_changed_event ts ea n)
    | _ => Option.none
  else if tag = "dirtree_mkdir" then
    match rest with
    | [.str p] => Option.some (.dirtree_mkdir_event ts p)
    | _ => Option.none
  else if tag = "dirtree_rmdir" then
    match rest with
    | [.str p] => Option.some (.dirtree_rmdir_event ts p)
    | _ => Option.none
  else if tag = "dirtree_link" then
    match rest with
    | [.str p, .bool l] => Option.some (.dirtree_link_event ts p l)
    | _ => Option.none
  else if tag = "dirtree_move" then
    match rest with
    | [.str t] => Option.some (.dirtree_move_event ts t)
    | _ => Option.none
  else if tag = "dirtree_rank" then
    match rest with
    | [.str p, .int r] => Option.some (.dirtree_rank_event ts p r)
    | _ => Option.none
  else if tag = "dirtree_rminode" then
    match rest with
    | [.int i] => Option.some (.dirtree_rminode_event ts i)
    | _ => Option.none
  else if tag = "dirtree_segm_moved" then
    match rest with
    | [] => Option.some (.dirtree_segm_moved_event ts)
    | _ => Option.none
  else if tag = "changing_ti" then
    match rest with
    | [.int ea, nt, nf] => Option.some (.changing_ti_event ts ea nt nf)
    | _ => Option.none
  else if tag = "ti_changed" then
    match rest with
    | [.int ea, t, f] => Option.some (.ti_changed_event ts ea t f)
    | _ => Option.none
  else if tag = "changing_op_ti" then
    match rest with
    | [.int ea, .int n, nt, nf] => Option.some (.changing_op_ti_event ts ea n nt nf)
    | _ => Option.none
  else if tag = "op_ti_changed" then
    match rest with
    | [.int ea, .int n, t, f] => Option.some (.op_ti_changed_event ts ea n t f)
    | _ => Option.none
  else if tag = "local_types_changed" then
    match rest with
    | [l, .int o, .str nm] => Option.some (.local_types_changed_event ts l o nm)
    | _ => Option.none
  else if tag = "lt_udm_created" then
    match rest with
    | [.str un, uv] => (parseUdm uv).map fun u => .lt_udm_created_event ts un u
    | _ => Option.none
  else if tag = "lt_udm_deleted" then
    match rest with
    | [.str un, .int ut, uv] => (parseUdm uv).map fun u => .lt_udm_deleted_event ts un ut u
    | _ => Option.none
  else if tag = "lt_udm_renamed" then
    match rest with
    | [.str un, uv, .str onm] => (parseUdm uv).map fun u => .lt_udm_renamed_event ts un u onm
    | _ => Option.none
  else if tag = "lt_udm_changed" then
    match rest with
    | [.str un, .int ut, uo, uw] =>
        match parseUdm uo, parseUdm uw with
        | Option.some a, Option.some b => Option.some (.lt_udm_changed_event ts un ut a b)
        | _, _ => Option.none
    | _ => Option.none
  else if tag = "lt_udt_expanded" then
    match rest with
    | [.str un, .int ut, .int d] => Option.some (.lt_udt_expanded_event ts un ut d)
    | _ => Option.none
  else if tag = "lt_edm_created" then
    match rest with
    | [.str en, ev] => (parseEdm ev).map fun e => .lt_edm_created_event ts en e
    | _ => Option.none
  else if tag = "lt_edm_deleted" then
    match rest with
    | [.str en, .int et, ev] => (parseEdm ev).map fun e => .lt_edm_deleted_event ts en et e
    | _ => Option.none
  else if tag = "lt_edm_renamed" then
    match rest with
    | [.str en, ev, .str onm] => (parseEdm ev).map fun e => .lt_edm_renamed_event ts en e onm
    | _ => Option.none
  else if tag = "lt_edm_changed" then
    match rest with
    | [.str en, .int et, eo, ew] =>
        match parseEdm eo, parseEdm ew with
        | Option.some a, Option.some b => Option.some (.lt_edm_changed_event ts en et a b)
        | _, _ => Option.none
    | _ => Option.none
  else if tag = "stkpnts_changed" then
    match rest with
    | [pv] => (parseFunc pv).map fun p => .stkpnts_changed_event ts p
    | _ => Option.none
  else if tag = "frame_created" then
    match rest with
    | [.int fe] => Option.some (.frame_created_event ts fe)
    | _ => Option.none
  else if tag = "frame_expanded" then
    match rest with
    | [.int fe, .int ut, .int d] => Option.some (.frame_expanded_event ts fe ut d)
    | _ => Option.none
  else if tag = "frame_deleted" then
    match rest with
    | [pv] => (parseFunc pv).map fun p => .frame_deleted_event ts p
    | _ => Option.none
  else if tag = "frame_udm_created" then
    match rest with
    | [.int fe, uv] => (parseUdm uv).map fun u => .frame_udm_created_event ts fe u
    | _ => Option.none
  else if tag = "frame_udm_deleted" then
    match rest with
    | [.int fe, .int ut, uv] => (parseUdm uv).map fun u => .frame_udm_deleted_event ts fe ut u
    | _ => Option.none
  else if tag = "frame_udm_renamed" then
    match rest with
    | [.int fe, uv, .str onm] => (parseUdm uv).map fun u => .frame_udm_renamed_event ts fe u onm
    | _ => Option.none
  else if tag = "frame_udm_changed" then
    match rest with
    | [.int fe, .int ut, uo, uw] =>
        match parseUdm uo, parseUdm uw with
        | Option.some a, Option.some b => Option.some (.frame_udm_changed_event ts fe ut a b)
        | _, _ => Option.none
    | _ => Option.none
  else if tag = "determined_main" then
    match rest with
    | [.int m] => Option.some (.determined_main_event ts m)
    | _ => Option.none
  else if tag = "extlang_changed" then
    match rest with
    | [.int k, e, .int i] => Option.some (.extlang_changed_event ts k e i)
    | _ => Option.none
  else if tag = "idasgn_matched_ea" then
    match rest with
    | [.int ea, .str nm, .str ln] => Option.some (.idasgn_matched_ea_event ts ea nm ln)
    | _ => Option.none
  else Option.none

/-- Modelled from the spec: the deserializer — a serialized event is a list
opening with its discriminant tag and timestamp; the payload is parsed by
`parse_payload`; anything else is malformed and parses to `none`. -/
def parse_event : DVal → Option idb_event
  | .list (.str tag :: .int ts :: rest) => parse_payload tag ts rest
  | _ => Option.none

set_option maxHeartbeats 3200000

/-- C7: round-trip — serializing any event value of the closed union
`idb_event` and deserializing it yields the original event, equal in every
field: discriminant tag, timestamp, every kind-specific scalar, the
presence/absence of optional fields, and the full contents of the
fixed-length arrays (the 8-entry `ops` list and the 16-entry `defsr`
table). -/
theorem parse_dump_event :
    ∀ e : idb_event, parse_event (dump_event e) = Option.some e := by
  intro e
  cases e <;>
    simp [dump_event, parse_event, parse_payload, parseFunc_dumpFunc,
      parseSegment_dumpSegment, parseInsn_dumpInsn, parseRange_dumpRange,
      parseUdm_dumpUdm, parseEdm_dumpEdm]

set_option maxHeartbeats 200000

/-- The annotated attributes of `segm_moved_event`, in declaration order,
exactly as the class body declares them (note the `_from: int`
annotation). -/
def segm_moved_event_annotations : List String :=
  ["event_name", "timestamp", "_from", "to", "size", "changed_netmap"]

/-- The annotated attributes of `dirtree_move_event`, in declaration order,
exactly as the class body declares them (note the `_from: str`
annotation). -/
def dirtree_move_event_annotations : List String :=
  ["event_name", "timestamp", "_from", "to"]

/-- Modelled from pydantic's documented field-collection rule: a class
attribute whose name has a leading underscore is a *private attribute*,
not a model field — it is not settable through the constructor (an
underscore keyword argument is not a field and is ignored under the
default `extra` policy), it is not validated, and it is excluded from the
model's fields and from serialization (`model_dump`). -/
def is_private_attr (n : String) : Bool :=
  match n.data with
  | c :: _ => c == '_'
  | [] => false

/-- The model fields pydantic collects from a class's annotations: all
annotated attributes except the private (leading-underscore) ones. -/
def pydantic_model_fields (annotations : List String) : List String :=
  annotations.filter (fun n => !(is_private_attr n))

/-- C8: the source annotates `_from: int` on `segm_moved_event` and
`_from: str` on `dirtree_move_event`, but a leading-underscore annotation
is a pydantic private attribute, not a model field, so `_from` is not a
constructor-validated field and is dropped from the record: the events do
not carry the move's source address / source path.  Concretely, the
serialized `segm_moved` record contains only the tag, timestamp, `to`,
`size` and `changed_netmap`. -/
theorem from_fields_are_dropped :
    "_from" ∈ segm_moved_event_annotations ∧
    "_from" ∉ pydantic_model_fields segm_moved_event_annotations ∧
    pydantic_model_fields segm_moved_event_annotations
      = ["event_name", "timestamp", "to", "size", "changed_netmap"] ∧
    "_from" ∈ dirtree_move_event_annotations ∧
    "_from" ∉ pydantic_model_fields dirtree_move_event_annotations ∧
    pydantic_model_fields dirtree_move_event_annotations = ["event_name", "timestamp", "to"] ∧
    dump_event (.segm_moved_event 0 8192 256 true)
      = .list [.str "segm_moved", .int 0, .int 8192, .int 256, .bool true] :=
  ⟨by decide, by decide, by decide, by decide, by decide, by decide, rfl⟩
